import Mathlib

/-!
Verification of the off-CPU time attribution engine of `tools/offcputime.py`.

The probe side is the BPF C program embedded in the script (function `oncpu`,
hash maps `start` and `counts`, stack map `stack_traces`); the collector side
is the Python output loop.  Both are shallowly embedded here: the BPF hash
maps become association lists, u64 arithmetic is `Nat` taken modulo `2 ^ 64`,
and each invocation of `oncpu` is driven by an `Event` record that carries the
values the kernel supplies to that invocation (the outgoing task, the two
`bpf_ktime_get_ns` readings, the current task's pid/comm, and the result of
`get_stackid`).
-/

set_option autoImplicit false

namespace Offcputime

/-- Modulus of the C `u64` type used by the BPF maps. -/
def U64MOD : Nat := 2 ^ 64

theorem U64MOD_eq : U64MOD = 18446744073709551616 := by norm_num [U64MOD]

/-- `#define MINBLOCK_US 1` from the BPF program. -/
def MINBLOCK_US : Nat := 1

/-- `PF_KTHREAD` flag bit from `linux/sched.h`, used by the `-u` filter. -/
def PF_KTHREAD : Nat := 0x00200000

/-- Lookup in a BPF hash map modelled as an association list
(`map.lookup(&k)`). -/
def hlookup {α β : Type} [DecidableEq α] : List (α × β) → α → Option β
  | [], _ => none
  | (k, v) :: t, a => if k = a then some v else hlookup t a

/-- Upsert into a BPF hash map (`map.update(&k, &v)`). -/
def hupdate {α β : Type} [DecidableEq α] : List (α × β) → α → β → List (α × β)
  | [], a, b => [(a, b)]
  | (k, v) :: t, a, b => if k = a then (a, b) :: t else (k, v) :: hupdate t a b

/-- Deletion from a BPF hash map (`map.delete(&k)`). -/
def hdelete {α β : Type} [DecidableEq α] : List (α × β) → α → List (α × β)
  | [], _ => []
  | (k, v) :: t, a => if k = a then hdelete t a else (k, v) :: hdelete t a

/-- `struct key_t { char name[TASK_COMM_LEN]; int stack_id; }`. -/
structure key_t where
  name : String
  stack_id : Int
deriving DecidableEq, Repr

/-- The shared maps of the program: `BPF_HASH(counts, struct key_t)`,
`BPF_HASH(start, u32)` and `BPF_STACK_TRACE(stack_traces, 1024)`
(the stack map as fingerprint → stored frame list, innermost first). -/
structure Maps where
  start : List (Nat × Nat)
  counts : List (key_t × Nat)
  stack_traces : List (Int × List Nat)
deriving DecidableEq, Repr

/-- The kernel-supplied inputs of one `oncpu` invocation.  `pidUninit` is the
value held by the local variable `u32 pid` at the moment the substituted
`FILTER` expression is evaluated: the C code only assigns `pid = prev->pid`
*inside* the guarded block, so in pid-filter mode the comparison reads this
indeterminate value. -/
structure Event where
  prevPid : Nat
  prevFlags : Nat
  pidUninit : Nat
  tsRec : Nat
  curPid : Nat
  tsNow : Nat
  curComm : String
  stackId : Int
deriving DecidableEq, Repr

/-- u64 subtraction `a - b` with wraparound. -/
def u64sub (a b : Nat) : Nat := (a % U64MOD + (U64MOD - b % U64MOD)) % U64MOD

/-- `val = counts.lookup_or_init(&key, &zero); (*val) += delta;` — u64
addition into the entry, initialising to zero on first sight. -/
def upsertAdd (m : List (key_t × Nat)) (k : key_t) (d : Nat) : List (key_t × Nat) :=
  match hlookup m k with
  | some v => hupdate m k ((v + d) % U64MOD)
  | none => hupdate m k ((0 + d) % U64MOD)

/-- `FILTER` substitution for `args.pid` mode: `'pid == %s' % args.pid`.
Note that it reads the uninitialised local `pid`, not `prev->pid`. -/
def evalFilterPid (p : Nat) (ev : Event) : Bool := ev.pidUninit == p

/-- `FILTER` substitution for `-u` mode: `!(prev->flags & PF_KTHREAD)`. -/
def evalFilterUser (ev : Event) : Bool := (ev.prevFlags &&& PF_KTHREAD) == 0

/-- Default `FILTER` substitution: `1`. -/
def evalFilterAll (_ : Event) : Bool := true

/-- The `start` map after the first half of `oncpu`:
`if (FILTER) { pid = prev->pid; ts = bpf_ktime_get_ns(); start.update(&pid, &ts); }`. -/
def startAfterRecord (filt : Event → Bool) (ev : Event) (s : Maps) : List (Nat × Nat) :=
  if filt ev then hupdate s.start ev.prevPid ev.tsRec else s.start

/-- The BPF probe handler `oncpu`, one invocation per scheduling transition:
record the outgoing thread's timestamp when the filter passes, then take the
incoming thread's pending timestamp, apply the minimum-threshold check and
accumulate the microsecond delta under `(comm, stack_id)`. -/
def oncpu (filt : Event → Bool) (ev : Event) (s : Maps) : Maps :=
  let start1 := startAfterRecord filt ev s
  match hlookup start1 ev.curPid with
  | none => { s with start := start1 }
  | some tsp =>
      let start2 := hdelete start1 ev.curPid
      let delta := u64sub ev.tsNow tsp / 1000
      if delta < MINBLOCK_US then { s with start := start2 }
      else { s with start := start2,
                    counts := upsertAdd s.counts ⟨ev.curComm, ev.stackId⟩ delta }

/-- Run a sequence of scheduling transitions through the probe. -/
def runEvents (filt : Event → Bool) (evs : List Event) (s : Maps) : Maps :=
  evs.foldl (fun m e => oncpu filt e m) s

/-! ### Basic association-list lemmas -/

theorem hlookup_hupdate_self {α β : Type} [DecidableEq α]
    (m : List (α × β)) (a : α) (b : β) : hlookup (hupdate m a b) a = some b := by
  induction m with
  | nil => simp [hupdate, hlookup]
  | cons kv t ih =>
      obtain ⟨k, v⟩ := kv
      by_cases h : k = a
      · simp [hupdate, hlookup, h]
      · simp [hupdate, hlookup, h, ih]

theorem hlookup_hdelete_self {α β : Type} [DecidableEq α]
    (m : List (α × β)) (a : α) : hlookup (hdelete m a) a = none := by
  induction m with
  | nil => simp [hdelete, hlookup]
  | cons kv t ih =>
      obtain ⟨k, v⟩ := kv
      by_cases h : k = a
      · simp [hdelete, h, ih]
      · simp [hdelete, hlookup, h, ih]

theorem hlookup_upsertAdd_self (m : List (key_t × Nat)) (k : key_t) (d : Nat) :
    hlookup (upsertAdd m k d) k = some (((hlookup m k).getD 0 + d) % U64MOD) := by
  unfold upsertAdd
  cases h : hlookup m k with
  | none => simp [h, hlookup_hupdate_self]
  | some v => simp [h, hlookup_hupdate_self]

theorem u64sub_eq_sub (a b : Nat) (hba : b ≤ a) (ha : a < U64MOD) :
    u64sub a b = a - b := by
  unfold u64sub
  rw [U64MOD_eq] at *
  omega

/-! ### One off/on pair of scheduling transitions for a fixed thread

A switch-out of thread `t` followed by the switch-in of `t` is two `oncpu`
invocations: one where `t` is the outgoing task (`prev`), one where `t` is
the incoming (current) task.  `P` is the configured pid-filter value; the
out-event's uninitialised `pid` local happens to hold `P` (so the filter
passes) and the in-event's holds `P + 1` (so it fails), which keeps every
other thread out of the `start` map. -/

/-- One off-processor interval of the observed thread: the `bpf_ktime_get_ns`
reading at switch-out and the one at switch-in. -/
structure SleepPair where
  tsOut : Nat
  tsIn : Nat
deriving DecidableEq, Repr

/-- The transition that switches thread `t` out (and some other thread `o`
in). -/
def outEvent (P t o : Nat) (p : SleepPair) : Event :=
  { prevPid := t, prevFlags := 0, pidUninit := P, tsRec := p.tsOut,
    curPid := o, tsNow := p.tsOut, curComm := "", stackId := 0 }

/-- The transition that switches thread `t` back in, with comm `c` and the
captured stack fingerprint `sid`. -/
def inEvent (P t o : Nat) (c : String) (sid : Int) (p : SleepPair) : Event :=
  { prevPid := o, prevFlags := 0, pidUninit := P + 1, tsRec := 0,
    curPid := t, tsNow := p.tsIn, curComm := c, stackId := sid }

/-- The event sequence of a list of (switch-out, switch-in) pairs on thread
`t`, in order and with no intervening drain. -/
def pairsEvents (P t o : Nat) (c : String) (sid : Int) : List SleepPair → List Event
  | [] => []
  | p :: ps => outEvent P t o p :: inEvent P t o c sid p :: pairsEvents P t o c sid ps

/-- The microsecond delta the probe computes for one pair. -/
def deltaUs (p : SleepPair) : Nat := (p.tsIn - p.tsOut) / 1000

theorem oncpu_outEvent (P t o : Nat) (p : SleepPair) (cs : List (key_t × Nat))
    (sts : List (Int × List Nat)) (hto : t ≠ o) :
    oncpu (evalFilterPid P) (outEvent P t o p) ⟨[], cs, sts⟩ =
      ⟨[(t, p.tsOut)], cs, sts⟩ := by
  simp [oncpu, startAfterRecord, evalFilterPid, outEvent, hupdate, hlookup, hto]

theorem oncpu_inEvent (P t o : Nat) (c : String) (sid : Int) (p : SleepPair)
    (cs : List (key_t × Nat)) (sts : List (Int × List Nat))
    (hle : p.tsOut ≤ p.tsIn) (hlt : p.tsIn < U64MOD)
    (hth : MINBLOCK_US ≤ deltaUs p) :
    oncpu (evalFilterPid P) (inEvent P t o c sid p) ⟨[(t, p.tsOut)], cs, sts⟩ =
      ⟨[], upsertAdd cs ⟨c, sid⟩ (deltaUs p), sts⟩ := by
  have hth' : ¬ (deltaUs p < MINBLOCK_US) := Nat.not_lt.mpr hth
  have hdel : u64sub p.tsIn p.tsOut / 1000 = deltaUs p := by
    rw [u64sub_eq_sub p.tsIn p.tsOut hle hlt]; rfl
  simp [oncpu, startAfterRecord, evalFilterPid, inEvent, Nat.succ_ne_self,
    hlookup, hdelete, hdel, hth']

theorem runEvents_pairsEvents (P t o : Nat) (c : String) (sid : Int)
    (sts : List (Int × List Nat)) (hto : t ≠ o) :
    ∀ (pairs : List SleepPair) (cs : List (key_t × Nat)),
      (∀ p ∈ pairs, p.tsOut ≤ p.tsIn ∧ p.tsIn < U64MOD ∧ MINBLOCK_US ≤ deltaUs p) →
      runEvents (evalFilterPid P) (pairsEvents P t o c sid pairs) ⟨[], cs, sts⟩ =
        ⟨[], pairs.foldl (fun m p => upsertAdd m ⟨c, sid⟩ (deltaUs p)) cs, sts⟩
  | [], cs, _ => by simp [pairsEvents, runEvents]
  | p :: ps, cs, h => by
      have hp := h p (List.mem_cons_self p ps)
      have hrest : ∀ q ∈ ps, q.tsOut ≤ q.tsIn ∧ q.tsIn < U64MOD ∧ MINBLOCK_US ≤ deltaUs q :=
        fun q hq => h q (List.mem_cons_of_mem p hq)
      have step1 := oncpu_outEvent P t o p cs sts hto
      have step2 := oncpu_inEvent P t o c sid p cs sts hp.1 hp.2.1 hp.2.2
      have ih := runEvents_pairsEvents P t o c sid sts hto ps
        (upsertAdd cs ⟨c, sid⟩ (deltaUs p)) hrest
      simp only [pairsEvents, runEvents, List.foldl_cons] at *
      rw [step1, step2, ih]

theorem hlookup_foldl_upsertAdd (key : key_t) :
    ∀ (ds : List Nat) (cs : List (key_t × Nat)),
      hlookup (ds.foldl (fun m d => upsertAdd m key d) cs) key =
        if ds.isEmpty then hlookup cs key
        else some (((hlookup cs key).getD 0 + ds.sum) % U64MOD)
  | [], cs => by simp
  | d :: ds, cs => by
      have ih := hlookup_foldl_upsertAdd key ds (upsertAdd cs key d)
      rw [List.foldl_cons, ih]
      cases ds with
      | nil => simp [hlookup_upsertAdd_self]
      | cons e es =>
          simp [hlookup_upsertAdd_self, Nat.mod_add_mod, Nat.add_assoc]

/-- C1: For a sequence of (switch-out, switch-in) pairs on the same thread
identifier, each with off-processor time at or above the minimum threshold
and with no intervening drain, the aggregated duration stored for the
resulting (thread name, stack fingerprint) key is exactly the sum of the
per-pair deltas `(tsIn - tsOut) / 1000` — none counted twice, none lost. -/
theorem aggregated_duration_exact_sum (P t o : Nat) (c : String) (sid : Int)
    (sts : List (Int × List Nat)) (pairs : List SleepPair)
    (hto : t ≠ o) (hne : pairs ≠ [])
    (hv : ∀ p ∈ pairs, p.tsOut ≤ p.tsIn ∧ p.tsIn < U64MOD ∧ MINBLOCK_US ≤ deltaUs p)
    (hsum : (pairs.map deltaUs).sum < U64MOD) :
    hlookup (runEvents (evalFilterPid P) (pairsEvents P t o c sid pairs)
        ⟨[], [], sts⟩).counts ⟨c, sid⟩ = some ((pairs.map deltaUs).sum) := by
  rw [runEvents_pairsEvents P t o c sid sts hto pairs [] hv]
  have hfold : pairs.foldl (fun m p => upsertAdd m ⟨c, sid⟩ (deltaUs p)) ([] : List (key_t × Nat)) =
      (pairs.map deltaUs).foldl (fun m d => upsertAdd m ⟨c, sid⟩ d) [] := by
    rw [List.foldl_map]
  simp only [hfold]
  rw [hlookup_foldl_upsertAdd]
  have hempty : (pairs.map deltaUs).isEmpty = false := by
    cases pairs with
    | nil => exact absurd rfl hne
    | cons a l => simp
  rw [hempty]
  simp [hlookup, Nat.mod_eq_of_lt hsum]

/-- Witness for C1 at a concrete input: one pair sleeping from ns 0 to
ns 2000 yields an aggregated duration of exactly 2 microseconds. -/
theorem aggregated_duration_exact_sum_witness :
    hlookup (runEvents (evalFilterPid 0) (pairsEvents 0 1 2 "w" 0 [⟨0, 2000⟩])
        ⟨[], [], []⟩).counts ⟨"w", 0⟩ = some 2 := by
  have h := aggregated_duration_exact_sum 0 1 2 "w" 0 [] [⟨0, 2000⟩]
    (by decide) (by decide)
    (by intro p hp; simp only [List.mem_singleton] at hp; subst hp; refine ⟨by decide, by decide, by decide⟩)
    (by decide)
  simpa using h

/-! ### Probe-side invariants: threshold discard, missed start, consumption -/

/-- C4: Every accumulation into the aggregation table is of a single delta
that meets the minimum threshold (so durations are sums of strictly
positive, threshold-passing deltas only), and a transition whose computed
`delta_us = (now() - start_timestamp) / 1000` is below `MINBLOCK_US` leaves
every aggregation entry untouched. -/
theorem below_threshold_contributes_nothing (filt : Event → Bool) (ev : Event) (s : Maps) :
    ((oncpu filt ev s).counts = s.counts ∨
      ∃ d, MINBLOCK_US ≤ d ∧
        (oncpu filt ev s).counts = upsertAdd s.counts ⟨ev.curComm, ev.stackId⟩ d) ∧
    (∀ tsp, hlookup (startAfterRecord filt ev s) ev.curPid = some tsp →
      u64sub ev.tsNow tsp / 1000 < MINBLOCK_US → (oncpu filt ev s).counts = s.counts) := by
  simp only [oncpu]
  cases h : hlookup (startAfterRecord filt ev s) ev.curPid with
  | none =>
      refine ⟨Or.inl rfl, fun tsp htsp _ => ?_⟩
      exact absurd htsp (by simp)
  | some tsp =>
      constructor
      · by_cases hd : u64sub ev.tsNow tsp / 1000 < MINBLOCK_US
        · exact Or.inl (by simp [hd])
        · exact Or.inr ⟨u64sub ev.tsNow tsp / 1000, Nat.not_lt.mp hd, by simp [hd]⟩
      · intro tsp' htsp' hlt
        obtain rfl : tsp = tsp' := Option.some.inj htsp'
        simp [hlt]

/-- Witness for C4: with the all-threads filter, a transition whose pending
start is 100 ns old at switch-in (delta 0 µs, below the 1 µs threshold)
leaves the counts table unchanged. -/
theorem below_threshold_contributes_nothing_witness :
    (oncpu evalFilterAll
        ⟨9, 0, 0, 140, 3, 200, "w", 0⟩
        ⟨[(3, 100)], [(⟨"w", 0⟩, 7)], []⟩).counts = [(⟨"w", 0⟩, 7)] :=
  (below_threshold_contributes_nothing evalFilterAll
      ⟨9, 0, 0, 140, 3, 200, "w", 0⟩
      ⟨[(3, 100)], [(⟨"w", 0⟩, 7)], []⟩).2 100 (by decide) (by decide)

/-- C5: A switch-in for a thread identifier with no pending-start entry
(after the record phase of the same transition) produces no sample: the
counts table, the stack map, and even the start table (beyond the record
phase itself) are unchanged — a silent discard, not an error. -/
theorem missed_start_silent_discard (filt : Event → Bool) (ev : Event) (s : Maps)
    (h : hlookup (startAfterRecord filt ev s) ev.curPid = none) :
    (oncpu filt ev s).counts = s.counts ∧
    (oncpu filt ev s).start = startAfterRecord filt ev s ∧
    (oncpu filt ev s).stack_traces = s.stack_traces := by
  simp only [oncpu]
  rw [h]
  exact ⟨rfl, rfl, rfl⟩

/-- Witness for C5: a switch-in of thread 4, never recorded, leaves the
counts table exactly as it was. -/
theorem missed_start_silent_discard_witness :
    (oncpu evalFilterAll
        ⟨9, 0, 0, 500, 4, 9000, "x", 1⟩
        ⟨[(3, 100)], [(⟨"w", 0⟩, 7)], []⟩).counts = [(⟨"w", 0⟩, 7)] :=
  (missed_start_silent_discard evalFilterAll
      ⟨9, 0, 0, 500, 4, 9000, "x", 1⟩
      ⟨[(3, 100)], [(⟨"w", 0⟩, 7)], []⟩ (by decide)).1

/-- C9: Whenever the take of the incoming thread's pending start succeeds,
the entry is deleted — before the threshold check — so after the invocation
no pending entry remains for that identifier, even when the sample was
discarded as below threshold. -/
theorem pending_entry_consumed (filt : Event → Bool) (ev : Event) (s : Maps) (tsp : Nat)
    (h : hlookup (startAfterRecord filt ev s) ev.curPid = some tsp) :
    hlookup (oncpu filt ev s).start ev.curPid = none := by
  simp only [oncpu]
  rw [h]
  by_cases hd : u64sub ev.tsNow tsp / 1000 < MINBLOCK_US
  · simp [hd, hlookup_hdelete_self]
  · simp [hd, hlookup_hdelete_self]

/-- Witness for C9: thread 3's pending entry (50 ns before switch-in, a
below-threshold delta of 0 µs) is consumed anyway. -/
theorem pending_entry_consumed_witness :
    hlookup (oncpu evalFilterAll
        ⟨9, 0, 0, 140, 3, 150, "w", 0⟩
        ⟨[(3, 100)], [], []⟩).start 3 = none :=
  pending_entry_consumed evalFilterAll
    ⟨9, 0, 0, 140, 3, 150, "w", 0⟩
    ⟨[(3, 100)], [], []⟩ 100 (by decide)

/-! ### C3: the pid-mode inclusion predicate

The script substitutes `FILTER` with `'pid == %s' % args.pid`, but at the
point `if (FILTER)` is evaluated the local `u32 pid` has not yet been
assigned (`pid = prev->pid` is the first statement *inside* the guarded
block).  The predicate therefore compares an indeterminate value, not the
outgoing thread's identifier. -/

/-- C3 (failing input): with `-p 185`, a transition whose outgoing thread
has `prev->pid = 185` but whose uninitialised `pid` local holds 0 creates no
PendingStart entry for 185; conversely, when the garbage value happens to be
185 an entry is created for an outgoing thread with `prev->pid = 7`. -/
theorem pid_filter_reads_uninitialized_local :
    (oncpu (evalFilterPid 185)
        ⟨185, 0, 0, 500, 7, 600, "x", 0⟩ ⟨[], [], []⟩).start = [] ∧
    (oncpu (evalFilterPid 185)
        ⟨7, 0, 185, 500, 9, 600, "x", 0⟩ ⟨[], [], []⟩).start = [(7, 500)] := by
  constructor
  · decide
  · decide

/-! ### Collector side: the Python output loop

Symbol resolution (`b.ksym`) is an external lookup service, modelled as an
abstract function `ksym : Nat → String`.  Each element of the output lists
below is the argument of one `print(...)` call. -/

/-- `stack_traces.walk(stack_id)`: the stored frame list of a fingerprint,
innermost first. -/
def walkStack (sts : List (Int × List Nat)) (sid : Int) : List Nat :=
  (hlookup sts sid).getD []

/-- Lowercase hex rendering of an address (Python `%x`). -/
def hexStr (n : Nat) : String := String.mk (Nat.toDigits 16 n)

/-- Left-justified padding to a field width (Python `%-16x` / `%-16s`). -/
def padRight (s : String) (w : Nat) : String :=
  s ++ String.mk (List.replicate (w - s.length) ' ')

/-- The folded output branch:
`stack = list(stack_traces.walk(k.stack_id))[1:]`,
`line = [k.name.decode()] + [b.ksym(addr) for addr in reversed(stack)]`,
`print("%s %d" % (";".join(line), v.value))`. -/
def foldedLine (ksym : Nat → String) (sts : List (Int × List Nat))
    (k : key_t) (v : Nat) : String :=
  let stack := (walkStack sts k.stack_id).drop 1
  String.intercalate ";" (k.name :: (stack.reverse.map ksym)) ++ " " ++ toString v

/-- The multi-line output branch: one `    %-16x %s` line per walked frame,
a `    %-16s %s` separator with the thread name, then the duration line. -/
def multiLines (ksym : Nat → String) (sts : List (Int × List Nat))
    (k : key_t) (v : Nat) : List String :=
  ((walkStack sts k.stack_id).map fun addr =>
      "    " ++ padRight (hexStr addr) 16 ++ " " ++ ksym addr)
    ++ ["    " ++ padRight "-" 16 ++ " " ++ k.name,
        "        " ++ toString v ++ "\n"]

/-- One sorted entry's print calls, in the chosen format. -/
def renderEntry (ksym : Nat → String) (folded : Bool) (sts : List (Int × List Nat))
    (k : key_t) (v : Nat) : List String :=
  if folded then [foldedLine ksym sts k v] else multiLines ksym sts k v

/-- Stable insertion for `sorted(counts.items(), key=lambda c: c[1].value)`:
ascending by duration, ties keeping first-seen order. -/
def insertByVal (x : key_t × Nat) : List (key_t × Nat) → List (key_t × Nat)
  | [] => [x]
  | y :: t => if x.2 < y.2 then x :: y :: t else y :: insertByVal x t

/-- Ascending stable sort of the snapshot of the counts table. -/
def sortByVal (l : List (key_t × Nat)) : List (key_t × Nat) :=
  l.foldr insertByVal []

/-- One drain-and-render pass over the shared maps.  `args.verbose` is
threaded through (first argument) because the session accepts it, but the
output loop of the script never reads it.  Returns the printed lines and the
maps after `counts.clear()` — `stack_traces` is not cleared. -/
def drainRender (_verbose : Bool) (ksym : Nat → String) (folded : Bool)
    (m : Maps) : List String × Maps :=
  let entries := sortByVal m.counts
  let lines := entries.flatMap fun kv => renderEntry ksym folded m.stack_traces kv.1 kv.2
  (lines, { m with counts := [] })

/-- C6: drain-and-render clears the aggregation table but not the stack
store: an immediately following second drain renders zero entries, the stack
map is bit-for-bit unchanged, and every fingerprint interned before the
first drain still resolves to the same frames afterwards. -/
theorem second_drain_empty_stacks_persist (verbose : Bool) (ksym : Nat → String)
    (folded : Bool) (m : Maps) :
    (drainRender verbose ksym folded (drainRender verbose ksym folded m).2).1 = [] ∧
    (drainRender verbose ksym folded m).2.stack_traces = m.stack_traces ∧
    (∀ sid, walkStack (drainRender verbose ksym folded m).2.stack_traces sid =
      walkStack m.stack_traces sid) := by
  refine ⟨?_, rfl, fun _ => rfl⟩
  simp [drainRender, sortByVal]

/-! ### C2: the folded wire format on the synthetic entry of the spec

Stored stack (innermost first): address 1 resolving to `frameA`, address 2
resolving to `frameB`; thread name `worker`; duration 1500. -/

/-- Symbol resolver for the synthetic C2 entry. -/
def ksymAB (a : Nat) : String := if a = 1 then "frameA" else "frameB"

/-- The synthetic aggregation state of the C2 test: one entry
`{thread_name="worker", stack=[frameA, frameB], duration=1500}` under
fingerprint 7. -/
def mapsC2 : Maps :=
  { start := [], counts := [(⟨"worker", 7⟩, 1500)], stack_traces := [(7, [1, 2])] }

/-- C2 fails on the code: the folded branch drops the first stored
(innermost) frame — `list(...)[1:]` — so the claimed line
`worker;frameA;frameB 1500` is not produced. -/
theorem folded_line_not_as_claimed :
    (drainRender false ksymAB true mapsC2).1 ≠ ["worker;frameA;frameB 1500"] := by
  decide

/-- C2 amended: on the synthetic entry the folded output is exactly
`worker;frameB 1500` — the thread name, then the stored frames minus the
first (innermost) one, reversed to outermost-first, semicolon-joined, a
single space, and the raw duration. -/
theorem folded_line_drops_first_frame :
    (drainRender false ksymAB true mapsC2).1 = ["worker;frameB 1500"] := by
  decide

/-! ### The output loop and the top-level script flow -/

/-- Result of running the `while (1)` output loop with a given amount of
fuel (an upper bound on observable iterations): number of iterations of the
body that ran, final maps, everything printed, and whether the body reached
its terminating `exit()`. -/
structure LoopResult where
  iters : Nat
  maps : Maps
  out : List String
  exited : Bool
deriving DecidableEq, Repr

/-- One body of the output loop: `sleep(duration)` (a `KeyboardInterrupt`
there only installs `signal_ignore` and falls through), the blank line in
non-folded mode, the drain-and-render over the tables, `counts.clear()`,
the `Detaching...` notice in non-folded mode, and the unconditional
`exit()` (returned as the `true` flag). -/
def loopBody (verbose : Bool) (ksym : Nat → String) (folded : Bool)
    (_interrupted : Bool) (m : Maps) : Maps × List String × Bool :=
  let pre := if !folded then [""] else []
  let (lines, m2) := drainRender verbose ksym folded m
  let post := if !folded then ["Detaching..."] else []
  (m2, pre ++ lines ++ post, true)

/-- `while (1): body` — runs the body until it reaches `exit()` or the fuel
runs out. -/
def whileTrue (body : Maps → Maps × List String × Bool) : Nat → Maps → LoopResult
  | 0, m => ⟨0, m, [], false⟩
  | n + 1, m =>
      match body m with
      | (m2, out, true) => ⟨1, m2, out, true⟩
      | (m2, out, false) =>
          let r := whileTrue body n m2
          ⟨r.iters + 1, r.maps, out ++ r.out, r.exited⟩

/-- Parsed session configuration (`argparse` results). -/
structure Args where
  useronly : Bool
  pid : Option String
  verbose : Bool
  folded : Bool
  duration : Nat
deriving DecidableEq, Repr

/-- Python truthiness of `args.pid` (a string option: absent or empty is
falsy). -/
def pyTruthyStr : Option String → Bool
  | none => false
  | some s => !(s == "")

/-- `print("ERROR: use either -p or -u.")`. -/
def ERRMSG : String := "ERROR: use either -p or -u."

/-- `print("0 functions traced. Exiting.")`. -/
def ZEROMSG : String := "0 functions traced. Exiting."

/-- The non-folded header line. -/
def headerLine (duration : Nat) : String :=
  "Tracing off-CPU time (us) by kernel stack" ++
    (if duration < 99999999 then " for " ++ toString duration ++ " secs."
     else "... Hit Ctrl-C to end.")

/-- How a session ended. -/
inductive Outcome where
  | configError
  | attachZero
  | finished
deriving DecidableEq, Repr

/-- Observable result of one run of the script. -/
structure RunResult where
  outcome : Outcome
  attachAttempts : Nat
  drains : Nat
  finalMaps : Maps
  output : List String
deriving DecidableEq, Repr

/-- The top-level control flow of the script: argument validation
(`if args.pid and args.useronly`), the single `attach_kprobe` attempt, the
`num_open_kprobes() == 0` check, the header, and the output loop.
`matched` is the count the host runtime reports for the attach; `m` holds
the shared maps at drain time; `fuel` bounds the loop. -/
def runScript (ksym : Nat → String) (matched : Nat) (fuel : Nat)
    (interrupted : Bool) (m : Maps) (a : Args) : RunResult :=
  if pyTruthyStr a.pid && a.useronly then
    ⟨.configError, 0, 0, m, [ERRMSG]⟩
  else if matched == 0 then
    ⟨.attachZero, 1, 0, m, [ZEROMSG]⟩
  else
    let header := if !a.folded then [headerLine a.duration] else []
    let r := whileTrue (loopBody a.verbose ksym a.folded interrupted) fuel m
    ⟨.finished, 1, r.iters, r.maps, header ++ r.out⟩

/-- C7 fails on the code: the rendered output can never differ between
verbose enabled and verbose disabled, because the output code never reads
`args.verbose` — the two render functions are one and the same. -/
theorem verbose_never_changes_output :
    drainRender true = drainRender false := rfl

/-- C7 amended: the `verbose` option is parsed but has no effect at all —
the whole observable run (rendered output, aggregated durations, final
maps) is identical with verbose enabled and disabled. -/
theorem verbose_has_no_effect (ksym : Nat → String) (matched fuel : Nat)
    (interrupted : Bool) (m : Maps) (a : Args) :
    runScript ksym matched fuel interrupted m { a with verbose := true } =
      runScript ksym matched fuel interrupted m { a with verbose := false } := rfl

/-- C8: configuring both the single-pid filter and the user-only filter is
rejected up front: the error is printed, no attach is attempted, no drain
runs, and no trace output is produced. -/
theorem config_error_exits_before_attach (ksym : Nat → String)
    (matched fuel : Nat) (interrupted : Bool) (m : Maps) (a : Args) (p : String)
    (hp : a.pid = some p) (hp2 : p ≠ "") (hu : a.useronly = true) :
    runScript ksym matched fuel interrupted m a =
      ⟨.configError, 0, 0, m, [ERRMSG]⟩ := by
  have htruthy : pyTruthyStr a.pid = true := by
    rw [hp]
    simp [pyTruthyStr, hp2]
  simp [runScript, htruthy, hu]

/-- Witness for C8: `-p 185 -u` yields the config error with zero attach
attempts and no trace output. -/
theorem config_error_exits_before_attach_witness :
    runScript (fun _ => "") 1 5 false ⟨[], [], []⟩
        ⟨true, some "185", false, false, 10⟩ =
      ⟨.configError, 0, 0, ⟨[], [], []⟩, [ERRMSG]⟩ :=
  config_error_exits_before_attach (fun _ => "") 1 5 false ⟨[], [], []⟩
    ⟨true, some "185", false, false, 10⟩ "185" rfl (by decide) rfl

/-- C10: in any completed session (filters valid, attach succeeded) the
drain-and-render body runs exactly once — whether the wait ended by the
duration elapsing or by an interruption — the aggregation table is left
cleared, and the process terminates (the loop body reaches `exit()`). -/
theorem exactly_one_drain_per_run (ksym : Nat → String) (matched fuel : Nat)
    (interrupted : Bool) (m : Maps) (a : Args)
    (hm : matched ≠ 0) (hc : (pyTruthyStr a.pid && a.useronly) = false)
    (hf : 1 ≤ fuel) :
    (runScript ksym matched fuel interrupted m a).drains = 1 ∧
    (runScript ksym matched fuel interrupted m a).finalMaps.counts = [] ∧
    (whileTrue (loopBody a.verbose ksym a.folded interrupted) fuel m).exited = true := by
  obtain ⟨n, rfl⟩ : ∃ n, fuel = n + 1 := ⟨fuel - 1, by omega⟩
  simp [runScript, hc, hm, whileTrue, loopBody, drainRender]

/-- Witness for C10: with fuel for five iterations, a valid session drains
exactly once and leaves the counts table empty. -/
theorem exactly_one_drain_per_run_witness :
    (runScript (fun _ => "") 1 5 false ⟨[], [(⟨"w", 0⟩, 7)], []⟩
        ⟨false, none, false, true, 3⟩).drains = 1 ∧
    (runScript (fun _ => "") 1 5 false ⟨[], [(⟨"w", 0⟩, 7)], []⟩
        ⟨false, none, false, true, 3⟩).finalMaps.counts = [] ∧
    (whileTrue (loopBody false (fun _ => "") true false) 5
        ⟨[], [(⟨"w", 0⟩, 7)], []⟩).exited = true :=
  exactly_one_drain_per_run (fun _ => "") 1 5 false ⟨[], [(⟨"w", 0⟩, 7)], []⟩
    ⟨false, none, false, true, 3⟩ (by decide) (by decide) (by decide)

end Offcputime
